import Mathlib

/-!
Shallow embedding of the core of `deep-claude` (a Go program driving a
"propose change / review / merge" loop for an autonomous coding agent),
together with theorems settling the specification claims about it.

Embedding conventions:
* Go `int` / `time.Duration` (int64 nanoseconds) are modelled as `Int`;
  the two counters that are only ever 0-or-incremented are `Nat`.
* Go `float64` cost values are modelled as `Rat`: the only operations the
  program performs on them are addition and `>=` comparison.
* Go `error` values are modelled as `Option String` (`none` = nil error;
  the payload is the error text, which is all the program inspects).
* External effects (git, gh, the agent process) are modelled as explicit
  environment inputs recording each call's outcome; the functions under
  verification are translated from the Go sources statement by statement.
-/

namespace DeepClaude

/-- `strings.Contains s sub` from the Go standard library: `sub` occurs as a
contiguous substring of `s` (the empty string is a substring of anything). -/
def strContains (s sub : String) : Bool :=
  decide (sub.toList <:+: s.toList)

/-! ## Limit Policy: `internal/config/config.go` and `checkStopConditions`
(`internal/orchestrator/orchestrator.go:150-172`) -/

/-- The fields of `config.Config` consulted by the orchestrator loop
(`internal/config/config.go`). -/
structure Config where
  maxRuns : Int
  maxCost : Rat
  maxDuration : Int
  completionThreshold : Nat
  completionSignal : String
  disableCommits : Bool
  dryRun : Bool

/-- `Config.HasMaxRuns` (`config.go`): a max-runs limit is set. -/
def Config.hasMaxRuns (c : Config) : Bool := c.maxRuns > 0

/-- `Config.HasMaxCost` (`config.go`): a max-cost limit is set. -/
def Config.hasMaxCost (c : Config) : Bool := c.maxCost > 0

/-- `Config.HasMaxDuration` (`config.go`): a max-duration limit is set. -/
def Config.hasMaxDuration (c : Config) : Bool := c.maxDuration > 0

/-- The mutable loop state of `Orchestrator` read by `checkStopConditions`:
`iteration`, `totalCost`, elapsed wall-clock time (`time.Since(o.startTime)`)
and `completionSignalCount`. -/
structure RunState where
  iteration : Int
  totalCost : Rat
  elapsed : Int
  completionSignalCount : Nat

/-- Which stop condition fired.  The Go function returns a human-readable
string per condition ("reached max iterations (%d)", "reached max cost
($%.2f)", "reached max duration (%s)", "project completion signal
detected"); the constructor records which of those strings is produced. -/
inductive StopReason where
  | maxRuns
  | maxCost
  | maxDuration
  | completionSignal
deriving DecidableEq, Repr

/-- `Orchestrator.checkStopConditions` (`orchestrator.go:150-172`), returning
the `(stop, reason)` pair; `none` models the empty reason string returned
with `stop = false`. -/
def checkStopConditions (cfg : Config) (s : RunState) : Bool × Option StopReason :=
  if cfg.hasMaxRuns && s.iteration > cfg.maxRuns then
    (true, some .maxRuns)
  else if cfg.hasMaxCost && s.totalCost ≥ cfg.maxCost then
    (true, some .maxCost)
  else if cfg.hasMaxDuration && s.elapsed ≥ cfg.maxDuration then
    (true, some .maxDuration)
  else if s.completionSignalCount ≥ cfg.completionThreshold then
    (true, some .completionSignal)
  else
    (false, none)

/-! ## Completion-signal detection: `internal/claude/claude.go:223-229` and
the counter update in `runIteration` (`orchestrator.go:209-215`) -/

/-- `claude.ContainsCompletionSignal` (`claude.go:223-229`): an empty signal
never matches, otherwise exact case-sensitive substring containment
(`strings.Contains(output, signal)`). -/
def ContainsCompletionSignal (output signal : String) : Bool :=
  if signal == "" then false
  else strContains output signal

/-- The counter update performed by `runIteration`
(`orchestrator.go:209-215`): increment `completionSignalCount` when the
output contains the signal, otherwise reset it to 0. -/
def updateCompletionCount (count : Nat) (output signal : String) : Nat :=
  if ContainsCompletionSignal output signal then count + 1 else 0

/-- The counter after a sequence of iteration outputs, starting from
`init`: each cycle applies `updateCompletionCount` to its output. -/
def runCounter (signal : String) (outputs : List String) (init : Nat) : Nat :=
  outputs.foldl (fun c out => updateCompletionCount c out signal) init

/-- All outputs in the list contain the completion signal. -/
def allMatch (signal : String) (outputs : List String) : Bool :=
  outputs.all (fun out => ContainsCompletionSignal out signal)

/-- Length of the longest suffix of `outputs` every element of which
contains the completion signal. -/
def trailingMatches (signal : String) : List String → Nat
  | [] => 0
  | out :: rest =>
      if ContainsCompletionSignal out signal && allMatch signal rest then
        rest.length + 1
      else
        trailingMatches signal rest

/-! ## Review Lifecycle Tracker: `GetPRStatus` and `WaitForChecks`
(`internal/github/github.go`, provided as `src/unnamed/part_003`) -/

/-- `github.PRCheck`: one CI check as reported by `gh pr checks`. -/
structure PRCheck where
  name : String
  state : String
  bucket : String

/-- `check.State` is in the pending list of the `switch` in `GetPRStatus`. -/
def isPendingState (s : String) : Bool :=
  s == "PENDING" || s == "QUEUED" || s == "IN_PROGRESS"

/-- `check.State` is in the failed list of the `switch` in `GetPRStatus`. -/
def isFailedState (s : String) : Bool :=
  s == "FAILURE" || s == "ERROR" || s == "CANCELLED" || s == "TIMED_OUT" ||
    s == "ACTION_REQUIRED"

/-- `check.State` is in the explicit success list of the `switch` in
`GetPRStatus` (these set neither flag; so does the `default` case). -/
def isSuccessState (s : String) : Bool :=
  s == "SUCCESS" || s == "NEUTRAL" || s == "SKIPPED"

/-- The three-way classification {passed, pending, failed} the spec uses for
a raw check state; `passed` covers both the explicit success states and the
fall-through `default` of the Go `switch`. -/
inductive CheckClass where
  | passed
  | pending
  | failed
deriving DecidableEq, Repr

/-- Classification of one raw external check state by the `switch` statement
of `GetPRStatus`: success/neutral/skipped and anything unrecognized leave both
flags untouched (passed); the pending list sets the pending flag; the failed
list sets the failed flag. -/
def classifyCheckState (s : String) : CheckClass :=
  if isSuccessState s then .passed
  else if isPendingState s then .pending
  else if isFailedState s then .failed
  else .passed

/-- `github.PRStatus`: the snapshot assembled by `GetPRStatus`. -/
structure PRStatus where
  checks : List PRCheck
  reviewDecision : String
  isMergeable : Bool
  allChecksPassed : Bool
  hasPendingChecks : Bool
  hasFailedChecks : Bool

/-- The `for _, check := range checks` loop of `GetPRStatus`
(`part_003`, the github package): fold over the checks accumulating the
`(hasPendingChecks, hasFailedChecks)` flags via the `switch` on
`check.State`. -/
def analyzeChecks (checks : List PRCheck) : Bool × Bool :=
  checks.foldl
    (fun acc check =>
      if isSuccessState check.state then acc
      else if isPendingState check.state then (true, acc.2)
      else if isFailedState check.state then (acc.1, true)
      else acc)
    (false, false)

/-- The pure tail of `GetPRStatus`: given the fetched checks and review
decision, build the `PRStatus` snapshot (flag analysis loop, then
`AllChecksPassed` and `IsMergeable`). -/
def mkPRStatus (checks : List PRCheck) (reviewDecision : String) : PRStatus :=
  let flags := analyzeChecks checks
  let allPassed := checks.length == 0 || (!flags.1 && !flags.2)
  { checks := checks
    reviewDecision := reviewDecision
    isMergeable := allPassed && (reviewDecision == "" || reviewDecision == "APPROVED")
    allChecksPassed := allPassed
    hasPendingChecks := flags.1
    hasFailedChecks := flags.2 }

/-- The two ways `WaitForChecks` can return a non-nil error: a `GetPRStatus`
failure propagated as-is, or the deadline passing (the
"timeout waiting for PR checks" error). -/
inductive WaitError where
  | transport
  | timeout
deriving DecidableEq, Repr

/-- `github.WaitForChecks` (`part_003`), modelled with the sequence of poll
outcomes as explicit input: `polls` lists, for each loop entry that happens
while `time.Now().Before(deadline)`, the outcome of `GetPRStatus` (`none` =
error).  The empty list models the deadline having passed.  `lastStatus`
threads the `lastStatus` local (initially nil).  Returns the Go pair
`(*PRStatus, error)`. -/
def waitForChecks : List (Option PRStatus) → Option PRStatus →
    Option PRStatus × Option WaitError
  | [], lastStatus => (lastStatus, some .timeout)
  | poll :: rest, _lastStatus =>
      match poll with
      | none => (none, some .transport)
      | some status =>
          if status.hasFailedChecks then (some status, none)
          else if status.allChecksPassed then (some status, none)
          else waitForChecks rest (some status)

/-! ## Retry/Backoff Executor: `PushWithRetry` and `isNetworkError`
(`internal/git/git.go`, provided inside `src/internal/version/version_test.go`,
lines 173-197 and 361-372) -/

/-- `git.isNetworkError`: a nil error is not a network error; otherwise the
error text is matched against a fixed list of substrings. -/
def isNetworkError (err : Option String) : Bool :=
  match err with
  | none => false
  | some errStr =>
      strContains errStr "Could not resolve host" ||
      strContains errStr "Connection refused" ||
      strContains errStr "Network is unreachable" ||
      strContains errStr "Connection timed out" ||
      strContains errStr "SSL" ||
      strContains errStr "443"

/-- Outcome of `git.PushWithRetry`: success, the wrapped error returned
immediately on a non-network failure, or the aggregate
`"push failed after %d retries: %w"` error carrying `maxRetries` and the
last underlying cause. -/
inductive PushResult where
  | ok
  | permanentErr (e : String)
  | exhausted (retries : Nat) (lastErr : String)
deriving DecidableEq, Repr

/-- The `for i := 0; i <= maxRetries; i++` loop of `PushWithRetry`, fuelled
by the number of remaining loop entries.  `push j` is the outcome of the
`j`-th call to `c.Push(branch)` (`none` = success).  Returns the final
`PushResult`, the number of `Push` invocations made, and the list of delays
slept (in seconds), in order.  Per the source, an entry with `i > 0` first
sleeps the current backoff and doubles it (backoff starts at 2 seconds). -/
def pushLoop (push : Nat → Option String) (maxRetries : Nat) :
    Nat → Nat → Nat → List Nat → String → PushResult × Nat × List Nat
  | 0, i, _backoff, delays, lastErr =>
      (.exhausted maxRetries lastErr, i, delays.reverse)
  | remaining + 1, i, backoff, delays, _lastErr =>
      let backoff' := if i > 0 then backoff * 2 else backoff
      let delays' := if i > 0 then backoff :: delays else delays
      match push i with
      | none => (.ok, i + 1, delays'.reverse)
      | some e =>
          if !isNetworkError (some e) then (.permanentErr e, i + 1, delays'.reverse)
          else pushLoop push maxRetries remaining (i + 1) backoff' delays' e

/-- `git.PushWithRetry(branch, maxRetries)`: run the loop with `maxRetries+1`
loop entries, starting at `i = 0`, backoff 2 seconds, nil `lastErr`. -/
def pushWithRetry (push : Nat → Option String) (maxRetries : Nat) :
    PushResult × Nat × List Nat :=
  pushLoop push maxRetries (maxRetries + 1) 0 2 [] ""

/-! ## Agent invocation wrapper: `claude.Client.Run` (`claude.go:43-84`) -/

/-- `claude.Result` (`claude.go:18-24`). -/
structure Result where
  output : String
  cost : Rat
  isError : Bool
  rawOutput : String

/-- The observable behaviour of one `claude` subprocess execution, as seen
by `Client.Run`: whether `cmd.Run()` returned a non-nil error, the captured
stdout and stderr, and the outcome of `parseClaudeOutput` on the stdout
(`some (output, cost, isError)` when the JSON parse succeeds, `none` when
it fails).  The JSON parser itself is external input here; `Run` only
branches on its success. -/
structure AgentProc where
  runFailed : Bool
  stdout : String
  stderr : String
  parsed : Option (String × Rat × Bool)

/-- `claude.Client.Run` (`claude.go:43-84`), statement by statement: build
the result from stdout (falling back to the raw output when the parse
fails), then, when `cmd.Run()` failed, set `IsError` and replace the output
with stderr when stderr is non-empty — and return a nil error in every
case. -/
def clientRun (p : AgentProc) : Result × Option String :=
  let result : Result :=
    if p.stdout == "" then
      { output := "", cost := 0, isError := false, rawOutput := p.stdout }
    else
      match p.parsed with
      | some (out, cost, isErr) =>
          { output := out, cost := cost, isError := isErr, rawOutput := p.stdout }
      | none =>
          { output := p.stdout, cost := 0, isError := false, rawOutput := p.stdout }
  if p.runFailed then
    ({ result with
        isError := true
        output := if p.stderr == "" then result.output else p.stderr }, none)
  else
    (result, none)

/-! ## Iteration Driver: `Orchestrator.runIteration` (`orchestrator.go:174-335`)
and the outer loop in `Run` (`orchestrator.go:91-106`) -/

/-- The `return fmt.Errorf(...)` sites of `runIteration`: which step's error
the iteration returned to the outer loop. -/
inductive ErrSite where
  | createBranch
  | agentRun
  | stage
  | hasChanges
  | commit
  | push
  | createPR
  | merge
deriving DecidableEq, Repr

/-- How one call of `runIteration` ends: normal return `nil`, a returned
non-nil error (logged by `Run`, which then continues the loop), or a
runtime panic from dereferencing the nil `*PRStatus` that `WaitForChecks`
returns alongside a transport error — a panic is not a returned error and
propagates out of `Run`, crashing the process. -/
inductive IterOutcome where
  | ok
  | errAt (site : ErrSite)
  | panicNilStatus
deriving DecidableEq, Repr

/-- Trace of the externally visible actions `runIteration` performed, plus
the two counter updates it applies to the orchestrator state. -/
structure IterEffects where
  addedCost : Rat
  newSignalCount : Nat
  committed : Bool
  pushed : Bool
  openedPR : Bool
  closedPR : Bool
  merged : Bool
  switchedToBase : Bool
  deletedBranch : Bool
deriving DecidableEq, Repr

/-- Outcomes of every external call one `runIteration` may make, supplied as
input: branch creation, the agent subprocess, staging, the staged-changes
query (`none` = the query itself errored), the commit step, each push
attempt (consumed by `pushWithRetry`), PR creation, the sequence of
`GetPRStatus` poll outcomes inside `WaitForChecks`, and the merge. -/
structure IterEnv where
  createBranchOk : Bool
  agent : AgentProc
  stageOk : Bool
  hasChangesResult : Option Bool
  commitOk : Bool
  push : Nat → Option String
  createPROk : Bool
  polls : List (Option PRStatus)
  mergeOk : Bool

/-- The effects record before any external action has happened: no cost
added yet, signal counter unchanged, no action flags set. -/
def initEffects (count : Nat) : IterEffects :=
  { addedCost := 0, newSignalCount := count, committed := false,
    pushed := false, openedPR := false, closedPR := false, merged := false,
    switchedToBase := false, deletedBranch := false }

/-- The part of `Orchestrator.runIteration` after a successful agent
invocation (`orchestrator.go:205-335`), translated branch by branch:
cost tracking, completion-signal counting, the disable-commits / dry-run /
no-changes early exits, commit, push through the retry executor (3
retries), PR creation, waiting for checks, and the close / skip / merge
decision.  `result` is what `Client.Run` returned.  Effect records list
the `IterEffects` fields in declaration order (addedCost, newSignalCount,
committed, pushed, openedPR, closedPR, merged, switchedToBase,
deletedBranch).  Errors of
`SwitchBranch`, `DeleteBranch`, `ClosePR`, `Pull`, `notes.Read` and
`GetLastCommitTitle`/`GetLastCommitMessage` are ignored by the source
(`_ =` assignments) and are therefore not part of the environment. -/
def runIterationTail (cfg : Config) (count : Nat) (env : IterEnv)
    (result : Result) : IterOutcome × IterEffects :=
  let cost := result.cost
  let cnt := updateCompletionCount count result.output cfg.completionSignal
  if cfg.disableCommits then
    (.ok, ⟨cost, cnt, false, false, false, false, false, false, false⟩)
  else if cfg.dryRun then
    (.ok, ⟨cost, cnt, false, false, false, false, false, true, true⟩)
  else if !env.stageOk then
    (.errAt .stage, ⟨cost, cnt, false, false, false, false, false, false, false⟩)
  else
    match env.hasChangesResult with
    | none =>
        (.errAt .hasChanges,
          ⟨cost, cnt, false, false, false, false, false, false, false⟩)
    | some hasChanges =>
        if !hasChanges then
          (.ok, ⟨cost, cnt, false, false, false, false, false, true, true⟩)
        else if !env.commitOk then
          (.errAt .commit,
            ⟨cost, cnt, false, false, false, false, false, false, false⟩)
        else if (pushWithRetry env.push 3).1 != .ok then
          (.errAt .push, ⟨cost, cnt, true, false, false, false, false, false, false⟩)
        else if !env.createPROk then
          (.errAt .createPR,
            ⟨cost, cnt, true, true, false, false, false, false, false⟩)
        else
          match (waitForChecks env.polls none).1 with
          | none =>
              (.panicNilStatus,
                ⟨cost, cnt, true, true, true, false, false, false, false⟩)
          | some status =>
              if status.hasFailedChecks then
                (.ok, ⟨cost, cnt, true, true, true, true, false, true, false⟩)
              else if !status.isMergeable then
                (.ok, ⟨cost, cnt, true, true, true, false, false, true, false⟩)
              else if !env.mergeOk then
                (.errAt .merge,
                  ⟨cost, cnt, true, true, true, false, false, false, false⟩)
              else
                (.ok, ⟨cost, cnt, true, true, true, false, true, true, false⟩)

/-- `Orchestrator.runIteration` (`orchestrator.go:174-335`): branch
creation, the agent invocation with its error check (`orchestrator.go:
196-203`), then the rest of the iteration (`runIterationTail`).  `count` is
the incoming `completionSignalCount`. -/
def runIteration (cfg : Config) (count : Nat) (env : IterEnv) :
    IterOutcome × IterEffects :=
  if !env.createBranchOk then (.errAt .createBranch, initEffects count)
  else
    let runResult := clientRun env.agent
    match runResult.2 with
    | some _ => (.errAt .agentRun, initEffects count)
    | none => runIterationTail cfg count env runResult.1

/-! ## Concrete sample inputs used by closed theorems -/

/-- A successful agent subprocess: clean exit, parseable JSON giving output
"did work", cost 1, no error flag. -/
def sampleAgent : AgentProc := ⟨false, "out", "", some ("did work", 1, false)⟩

/-- A configuration with persistence enabled (no disable-commits, no
dry-run): max 5 iterations, threshold 3, signal "DONE". -/
def cfgPersist : Config := ⟨5, 0, 0, 3, "DONE", false, false⟩

/-- The same configuration with disable-commits active. -/
def cfgDisableCommits : Config := ⟨5, 0, 0, 3, "DONE", true, false⟩

/-- An environment where every external call succeeds and the single review
poll reports a zero-check (hence passing, mergeable) snapshot. -/
def envAllOk : IterEnv :=
  ⟨true, sampleAgent, true, some true, true, (fun _ => none), true,
    [some (mkPRStatus [] "")], true⟩

/-- An environment identical to `envAllOk` except that the first (and only)
review poll fails with a transport error (`GetPRStatus` returns a non-nil
error), as when the review system is unreachable. -/
def envPollError : IterEnv :=
  ⟨true, sampleAgent, true, some true, true, (fun _ => none), true,
    [none], true⟩

/-! ## Theorems -/

/-- `checkStopConditions` written with its boolean guards as propositions:
the cascade of the four stop conditions in source order. -/
theorem checkStop_eq (cfg : Config) (s : RunState) :
    checkStopConditions cfg s =
      if cfg.maxRuns > 0 ∧ s.iteration > cfg.maxRuns then (true, some .maxRuns)
      else if cfg.maxCost > 0 ∧ s.totalCost ≥ cfg.maxCost then (true, some .maxCost)
      else if cfg.maxDuration > 0 ∧ s.elapsed ≥ cfg.maxDuration then
        (true, some .maxDuration)
      else if s.completionSignalCount ≥ cfg.completionThreshold then
        (true, some .completionSignal)
      else (false, none) := by
  simp only [checkStopConditions, Config.hasMaxRuns, Config.hasMaxCost,
    Config.hasMaxDuration, Bool.and_eq_true, decide_eq_true_eq]

/-- C1: `checkStopConditions` checks the ceilings in fixed priority order —
iteration, cost, duration, completion signal — and the first true condition
supplies the stop reason; no true condition means continue.  With
`maxRuns = M > 0` and no other condition firing, it continues exactly while
`iteration ≤ M` (index equal to the ceiling still runs) and stops once
`iteration > M`; the cost and duration ceilings are boundary-inclusive:
when configured and no other condition fires, they stop exactly when the
tracked value is `≥` the ceiling. -/
theorem checkStopConditions_spec_C1 (cfg : Config) (s : RunState) :
    ((cfg.maxRuns > 0 ∧ s.iteration > cfg.maxRuns) →
      checkStopConditions cfg s = (true, some StopReason.maxRuns)) ∧
    (¬(cfg.maxRuns > 0 ∧ s.iteration > cfg.maxRuns) →
      (cfg.maxCost > 0 ∧ s.totalCost ≥ cfg.maxCost) →
      checkStopConditions cfg s = (true, some StopReason.maxCost)) ∧
    (¬(cfg.maxRuns > 0 ∧ s.iteration > cfg.maxRuns) →
      ¬(cfg.maxCost > 0 ∧ s.totalCost ≥ cfg.maxCost) →
      (cfg.maxDuration > 0 ∧ s.elapsed ≥ cfg.maxDuration) →
      checkStopConditions cfg s = (true, some StopReason.maxDuration)) ∧
    (¬(cfg.maxRuns > 0 ∧ s.iteration > cfg.maxRuns) →
      ¬(cfg.maxCost > 0 ∧ s.totalCost ≥ cfg.maxCost) →
      ¬(cfg.maxDuration > 0 ∧ s.elapsed ≥ cfg.maxDuration) →
      s.completionSignalCount ≥ cfg.completionThreshold →
      checkStopConditions cfg s = (true, some StopReason.completionSignal)) ∧
    (¬(cfg.maxRuns > 0 ∧ s.iteration > cfg.maxRuns) →
      ¬(cfg.maxCost > 0 ∧ s.totalCost ≥ cfg.maxCost) →
      ¬(cfg.maxDuration > 0 ∧ s.elapsed ≥ cfg.maxDuration) →
      ¬(s.completionSignalCount ≥ cfg.completionThreshold) →
      checkStopConditions cfg s = (false, none)) ∧
    (cfg.maxRuns > 0 → s.iteration > cfg.maxRuns →
      (checkStopConditions cfg s).1 = true) ∧
    (cfg.maxRuns > 0 →
      ¬(cfg.maxCost > 0 ∧ s.totalCost ≥ cfg.maxCost) →
      ¬(cfg.maxDuration > 0 ∧ s.elapsed ≥ cfg.maxDuration) →
      ¬(s.completionSignalCount ≥ cfg.completionThreshold) →
      ((checkStopConditions cfg s).1 = false ↔ s.iteration ≤ cfg.maxRuns)) ∧
    (cfg.maxCost > 0 →
      ¬(cfg.maxRuns > 0 ∧ s.iteration > cfg.maxRuns) →
      ¬(cfg.maxDuration > 0 ∧ s.elapsed ≥ cfg.maxDuration) →
      ¬(s.completionSignalCount ≥ cfg.completionThreshold) →
      ((checkStopConditions cfg s).1 = true ↔ s.totalCost ≥ cfg.maxCost)) ∧
    (cfg.maxDuration > 0 →
      ¬(cfg.maxRuns > 0 ∧ s.iteration > cfg.maxRuns) →
      ¬(cfg.maxCost > 0 ∧ s.totalCost ≥ cfg.maxCost) →
      ¬(s.completionSignalCount ≥ cfg.completionThreshold) →
      ((checkStopConditions cfg s).1 = true ↔ s.elapsed ≥ cfg.maxDuration)) := by
  simp only [checkStop_eq]
  refine ⟨?_, ?_, ?_, ?_, ?_, ?_, ?_, ?_, ?_⟩ <;> intros <;> split_ifs <;>
    first
    | rfl
    | tauto
    | (simp_all; omega)
    | simp_all

/-- Witness for C1: each stop condition exercised at a concrete
configuration and state. -/
theorem checkStopConditions_spec_C1_witness :
    checkStopConditions ⟨2, 10, 100, 3, "DONE", false, false⟩ ⟨3, 0, 0, 0⟩
      = (true, some StopReason.maxRuns) ∧
    checkStopConditions ⟨2, 10, 100, 3, "DONE", false, false⟩ ⟨1, 10, 0, 0⟩
      = (true, some StopReason.maxCost) ∧
    checkStopConditions ⟨2, 10, 100, 3, "DONE", false, false⟩ ⟨1, 0, 100, 0⟩
      = (true, some StopReason.maxDuration) ∧
    checkStopConditions ⟨2, 10, 100, 3, "DONE", false, false⟩ ⟨1, 0, 0, 3⟩
      = (true, some StopReason.completionSignal) ∧
    checkStopConditions ⟨2, 10, 100, 3, "DONE", false, false⟩ ⟨2, 0, 0, 0⟩
      = (false, none) ∧
    ((checkStopConditions ⟨2, 10, 100, 3, "DONE", false, false⟩ ⟨2, 0, 0, 0⟩).1
      = false ↔ (2 : Int) ≤ 2) :=
  ⟨(checkStopConditions_spec_C1 ⟨2, 10, 100, 3, "DONE", false, false⟩ ⟨3, 0, 0, 0⟩).1
      (by decide),
   (checkStopConditions_spec_C1 ⟨2, 10, 100, 3, "DONE", false, false⟩ ⟨1, 10, 0, 0⟩).2.1
      (by decide) (by decide),
   (checkStopConditions_spec_C1 ⟨2, 10, 100, 3, "DONE", false, false⟩ ⟨1, 0, 100, 0⟩).2.2.1
      (by decide) (by decide) (by decide),
   (checkStopConditions_spec_C1 ⟨2, 10, 100, 3, "DONE", false, false⟩ ⟨1, 0, 0, 3⟩).2.2.2.1
      (by decide) (by decide) (by decide) (by decide),
   (checkStopConditions_spec_C1 ⟨2, 10, 100, 3, "DONE", false, false⟩ ⟨2, 0, 0, 0⟩).2.2.2.2.1
      (by decide) (by decide) (by decide) (by decide),
   (checkStopConditions_spec_C1 ⟨2, 10, 100, 3, "DONE", false, false⟩ ⟨2, 0, 0, 0⟩).2.2.2.2.2.2.1
      (by decide) (by decide) (by decide) (by decide)⟩

theorem runCounter_cons (signal o : String) (rest : List String) (init : Nat) :
    runCounter signal (o :: rest) init =
      runCounter signal rest (updateCompletionCount init o signal) := rfl

theorem allMatch_cons (signal o : String) (rest : List String) :
    allMatch signal (o :: rest) =
      (ContainsCompletionSignal o signal && allMatch signal rest) := by
  simp [allMatch]

/-- A fully matching list has trailing-match length equal to its length. -/
theorem trailingMatches_of_allMatch (signal : String) :
    ∀ outs : List String, allMatch signal outs = true →
      trailingMatches signal outs = outs.length
  | [], _ => rfl
  | o :: rest, h => by
      rw [allMatch_cons, Bool.and_eq_true] at h
      simp [trailingMatches, h.1, h.2]

theorem trailingMatches_le (signal : String) :
    ∀ outs : List String, trailingMatches signal outs ≤ outs.length
  | [] => Nat.le_refl 0
  | o :: rest => by
      simp only [trailingMatches]
      split
      · simp
      · exact Nat.le_trans (trailingMatches_le signal rest) (Nat.le_succ _)

/-- Closed form of the counter after a run of cycles: if every cycle
matched, the counter grows by the number of cycles; otherwise it equals the
length of the trailing block of matching cycles (the last reset wiped
everything before it). -/
theorem runCounter_eq (signal : String) :
    ∀ (outs : List String) (init : Nat),
      runCounter signal outs init =
        if allMatch signal outs then init + outs.length
        else trailingMatches signal outs
  | [], init => by simp [runCounter, allMatch]
  | o :: rest, init => by
      rw [runCounter_cons, runCounter_eq signal rest]
      by_cases hm : ContainsCompletionSignal o signal = true
      · by_cases ha : allMatch signal rest = true
        · simp only [allMatch_cons, hm, ha, updateCompletionCount, if_pos,
            Bool.and_self, if_true, List.length_cons]
          omega
        · simp [allMatch_cons, hm, ha, trailingMatches]
      · by_cases ha : allMatch signal rest = true
        · simp [allMatch_cons, hm, ha, updateCompletionCount, trailingMatches,
            trailingMatches_of_allMatch signal rest ha]
        · simp [allMatch_cons, hm, ha, updateCompletionCount, trailingMatches]

/-- Every element of the trailing matching block indeed matches. -/
theorem trailingMatches_suffix (signal : String) :
    ∀ outs : List String,
      ∀ o ∈ outs.drop (outs.length - trailingMatches signal outs),
        ContainsCompletionSignal o signal = true := by
  intro outs
  induction outs with
  | nil => simp
  | cons o rest ih =>
      intro x hx
      by_cases hc : (ContainsCompletionSignal o signal && allMatch signal rest) = true
      · rw [Bool.and_eq_true] at hc
        simp only [trailingMatches, Bool.and_eq_true, hc.1, hc.2, and_self,
          if_true, List.length_cons, Nat.sub_self, List.drop_zero] at hx
        rcases List.mem_cons.mp hx with h | h
        · exact h ▸ hc.1
        · exact List.all_eq_true.mp hc.2 x h
      · have ht : trailingMatches signal (o :: rest) = trailingMatches signal rest := by
          simp only [trailingMatches]
          rw [if_neg hc]
        rw [ht] at hx
        have hle : trailingMatches signal rest ≤ rest.length :=
          trailingMatches_le signal rest
        have hsub : (o :: rest).length - trailingMatches signal rest =
            (rest.length - trailingMatches signal rest) + 1 := by
          simp only [List.length_cons]
          omega
        rw [hsub, List.drop_succ_cons] at hx
        exact ih x hx

/-- C5: the consecutive-completion-signal counter resets to 0 on any cycle
whose output lacks the completion phrase (exact, case-sensitive substring)
and increments otherwise; a run of matching cycles raises it by exactly the
run's length, a single non-matching cycle anywhere wipes everything before
it, the counter can reach a threshold `T` only when the last `T` cycles all
matched, and an empty completion phrase never matches. -/
theorem completionCounter_spec_C5 :
    (∀ (c : Nat) (out signal : String), ContainsCompletionSignal out signal = false →
      updateCompletionCount c out signal = 0) ∧
    (∀ (c : Nat) (out signal : String), ContainsCompletionSignal out signal = true →
      updateCompletionCount c out signal = c + 1) ∧
    (∀ (signal : String) (outs : List String) (init : Nat),
      allMatch signal outs = true →
      runCounter signal outs init = init + outs.length) ∧
    (∀ (signal bad : String) (pre suf : List String) (init : Nat),
      ContainsCompletionSignal bad signal = false →
      runCounter signal (pre ++ bad :: suf) init = runCounter signal suf 0) ∧
    (∀ (signal : String) (outs : List String) (T : Nat),
      runCounter signal outs 0 ≥ T →
      T ≤ outs.length ∧
        ∀ o ∈ outs.drop (outs.length - T), ContainsCompletionSignal o signal = true) ∧
    (∀ out : String, ContainsCompletionSignal out "" = false) := by
  refine ⟨?_, ?_, ?_, ?_, ?_, ?_⟩
  · intro c out signal h
    simp [updateCompletionCount, h]
  · intro c out signal h
    simp [updateCompletionCount, h]
  · intro signal outs init h
    rw [runCounter_eq, if_pos h]
  · intro signal bad pre suf init h
    unfold runCounter
    rw [List.foldl_append, List.foldl_cons]
    congr 1
    simp [updateCompletionCount, h]
  · intro signal outs T h
    rw [runCounter_eq] at h
    split at h
    · rename_i hall
      refine ⟨by simpa using h, fun o ho => ?_⟩
      exact List.all_eq_true.mp hall o (List.drop_subset _ _ ho)
    · have hle : trailingMatches signal outs ≤ outs.length :=
        trailingMatches_le signal outs
      refine ⟨Nat.le_trans h hle, fun o ho => ?_⟩
      have key : outs.length - T =
          (outs.length - trailingMatches signal outs) +
            (trailingMatches signal outs - T) := by omega
      rw [key, ← List.drop_drop] at ho
      exact trailingMatches_suffix signal outs o (List.drop_subset _ _ ho)
  · intro out
    simp [ContainsCompletionSignal]

/-- Witness for C5: concrete counter runs — a reset cycle, an increment, a
wiped prefix, and the suffix guarantee at threshold 2. -/
theorem completionCounter_spec_C5_witness :
    updateCompletionCount 5 "no signal here" "DONE" = 0 ∧
    updateCompletionCount 1 "work DONE now" "DONE" = 2 ∧
    runCounter "DONE" ["a DONE", "b DONE", "c DONE"] 0 = 3 ∧
    runCounter "DONE" ["a DONE", "miss", "b DONE", "c DONE"] 0 = 2 ∧
    (2 ≤ 4 ∧ ∀ o ∈ ["a DONE", "miss", "b DONE", "c DONE"].drop (4 - 2),
      ContainsCompletionSignal o "DONE" = true) ∧
    ContainsCompletionSignal "anything" "" = false := by
  refine ⟨?_, ?_, ?_, ?_, ?_, ?_⟩
  · exact completionCounter_spec_C5.1 5 "no signal here" "DONE" (by decide)
  · exact completionCounter_spec_C5.2.1 1 "work DONE now" "DONE" (by decide)
  · exact completionCounter_spec_C5.2.2.1 "DONE" ["a DONE", "b DONE", "c DONE"] 0
      (by decide)
  · exact (completionCounter_spec_C5.2.2.2.1 "DONE" "miss" ["a DONE"]
        ["b DONE", "c DONE"] 0 (by decide)).trans (by decide)
  · exact completionCounter_spec_C5.2.2.2.2.1 "DONE"
      ["a DONE", "miss", "b DONE", "c DONE"] 2 (by decide)
  · exact completionCounter_spec_C5.2.2.2.2.2 "anything"

/-- The three success states are neither pending nor failed states. -/
theorem isSuccess_disjoint (s : String) (h : isSuccessState s = true) :
    isPendingState s = false ∧ isFailedState s = false := by
  simp only [isSuccessState, Bool.or_eq_true, beq_iff_eq] at h
  rcases h with (h | h) | h <;> subst h <;> exact ⟨by decide, by decide⟩

/-- The three pending states are not failed states. -/
theorem isPending_not_failed (s : String) (h : isPendingState s = true) :
    isFailedState s = false := by
  simp only [isPendingState, Bool.or_eq_true, beq_iff_eq] at h
  rcases h with (h | h) | h <;> subst h <;> decide

/-- The flag-accumulating loop of `GetPRStatus`, with a general starting
accumulator: each flag ends up true iff it started true or some check's
state is in the corresponding list. -/
theorem analyzeChecks_foldl (l : List PRCheck) : ∀ p f : Bool,
    l.foldl
      (fun acc check =>
        if isSuccessState check.state then acc
        else if isPendingState check.state then (true, acc.2)
        else if isFailedState check.state then (acc.1, true)
        else acc) (p, f)
    = (p || l.any (fun c => isPendingState c.state),
       f || l.any (fun c => isFailedState c.state)) := by
  induction l with
  | nil => intro p f; simp
  | cons c rest ih =>
      intro p f
      simp only [List.foldl_cons, List.any_cons]
      by_cases hs : isSuccessState c.state = true
      · have hd := isSuccess_disjoint _ hs
        rw [if_pos hs, ih p f, hd.1, hd.2]
        simp
      · rw [if_neg hs]
        by_cases hp : isPendingState c.state = true
        · have hf := isPending_not_failed _ hp
          rw [if_pos hp, ih true f, hp, hf]
          simp
        · rw [if_neg hp]
          rw [Bool.not_eq_true] at hp
          by_cases hf : isFailedState c.state = true
          · rw [if_pos hf, ih p true, hp, hf]
            simp
          · rw [if_neg hf]
            rw [Bool.not_eq_true] at hf
            rw [ih p f, hp, hf]
            simp

/-- `analyzeChecks` computes exactly "some check is pending" and "some
check is failed". -/
theorem analyzeChecks_eq (checks : List PRCheck) :
    analyzeChecks checks =
      (checks.any (fun c => isPendingState c.state),
       checks.any (fun c => isFailedState c.state)) := by
  unfold analyzeChecks
  rw [analyzeChecks_foldl]
  simp

theorem classify_pending_iff (s : String) :
    classifyCheckState s = .pending ↔ isPendingState s = true := by
  unfold classifyCheckState
  split_ifs with h1 h2 h3 <;>
    simp_all [(fun h => (isSuccess_disjoint s h).1 : isSuccessState s = true → _)]

theorem classify_failed_iff (s : String) :
    classifyCheckState s = .failed ↔ isFailedState s = true := by
  unfold classifyCheckState
  split_ifs with h1 h2 h3 <;> simp_all
  · exact (isSuccess_disjoint s h1).2
  · exact isPending_not_failed s h2

theorem isPending_eq_classify (s : String) :
    (classifyCheckState s == CheckClass.pending) = isPendingState s := by
  rcases Bool.eq_false_or_eq_true (isPendingState s) with h | h <;> rw [h]
  · simp [(classify_pending_iff s).mpr h]
  · have : ¬ classifyCheckState s = .pending := fun hc => by
      simp [(classify_pending_iff s).mp hc] at h
    simp [this]

theorem isFailed_eq_classify (s : String) :
    (classifyCheckState s == CheckClass.failed) = isFailedState s := by
  rcases Bool.eq_false_or_eq_true (isFailedState s) with h | h <;> rw [h]
  · simp [(classify_failed_iff s).mpr h]
  · have : ¬ classifyCheckState s = .failed := fun hc => by
      simp [(classify_failed_iff s).mp hc] at h
    simp [this]

/-- C3: each check's raw external state is classified by the fixed mapping
success/neutral/skipped → passed, pending/queued/in-progress → pending,
failure/error/cancelled/timed-out/action-required → failed; any state
outside those lists is treated as passed (fail-open), and the snapshot's
pending/failed flags are exactly "some check classifies as pending/failed",
so an unrecognized state sets neither flag. -/
theorem checkClassification_spec_C3 :
    (classifyCheckState "SUCCESS" = .passed ∧ classifyCheckState "NEUTRAL" = .passed ∧
      classifyCheckState "SKIPPED" = .passed) ∧
    (classifyCheckState "PENDING" = .pending ∧ classifyCheckState "QUEUED" = .pending ∧
      classifyCheckState "IN_PROGRESS" = .pending) ∧
    (classifyCheckState "FAILURE" = .failed ∧ classifyCheckState "ERROR" = .failed ∧
      classifyCheckState "CANCELLED" = .failed ∧ classifyCheckState "TIMED_OUT" = .failed ∧
      classifyCheckState "ACTION_REQUIRED" = .failed) ∧
    (∀ s : String, isSuccessState s = false → isPendingState s = false →
      isFailedState s = false → classifyCheckState s = .passed) ∧
    (∀ (checks : List PRCheck) (rd : String),
      (mkPRStatus checks rd).hasPendingChecks
          = checks.any (fun c => classifyCheckState c.state == CheckClass.pending) ∧
      (mkPRStatus checks rd).hasFailedChecks
          = checks.any (fun c => classifyCheckState c.state == CheckClass.failed)) ∧
    (∀ (check : PRCheck) (rd : String), classifyCheckState check.state = .passed →
      (mkPRStatus [check] rd).hasPendingChecks = false ∧
      (mkPRStatus [check] rd).hasFailedChecks = false) := by
  refine ⟨⟨by decide, by decide, by decide⟩, ⟨by decide, by decide, by decide⟩,
    ⟨by decide, by decide, by decide, by decide, by decide⟩, ?_, ?_, ?_⟩
  · intro s h1 h2 h3
    unfold classifyCheckState
    rw [h1, h2, h3]
    rfl
  · intro checks rd
    constructor
    · show (analyzeChecks checks).1 = _
      rw [analyzeChecks_eq]
      simp only [isPending_eq_classify]
    · show (analyzeChecks checks).2 = _
      rw [analyzeChecks_eq]
      simp only [isFailed_eq_classify]
  · intro check rd hc
    have hp : isPendingState check.state = false := by
      rcases Bool.eq_false_or_eq_true (isPendingState check.state) with h | h
      · rw [(classify_pending_iff _).mpr h] at hc
        cases hc
      · exact h
    have hf : isFailedState check.state = false := by
      rcases Bool.eq_false_or_eq_true (isFailedState check.state) with h | h
      · rw [(classify_failed_iff _).mpr h] at hc
        cases hc
      · exact h
    constructor
    · show (analyzeChecks [check]).1 = false
      rw [analyzeChecks_eq]
      simp [hp]
    · show (analyzeChecks [check]).2 = false
      rw [analyzeChecks_eq]
      simp [hf]

/-- Witness for C3: an unrecognized raw state ("MYSTERY") classifies as
passed and leaves both flags of a one-check snapshot false. -/
theorem checkClassification_spec_C3_witness :
    classifyCheckState "MYSTERY" = CheckClass.passed ∧
    (mkPRStatus [⟨"build", "MYSTERY", ""⟩] "").hasPendingChecks = false ∧
    (mkPRStatus [⟨"build", "MYSTERY", ""⟩] "").hasFailedChecks = false :=
  ⟨checkClassification_spec_C3.2.2.2.1 "MYSTERY" (by decide) (by decide) (by decide),
   (checkClassification_spec_C3.2.2.2.2.2 ⟨"build", "MYSTERY", ""⟩ ""
      (checkClassification_spec_C3.2.2.2.1 "MYSTERY" (by decide) (by decide)
        (by decide))).1,
   (checkClassification_spec_C3.2.2.2.2.2 ⟨"build", "MYSTERY", ""⟩ ""
      (checkClassification_spec_C3.2.2.2.1 "MYSTERY" (by decide) (by decide)
        (by decide))).2⟩

/-- C4: `allChecksPassed` is "no checks, or neither pending nor failed" (so
a unit with zero checks passes); any failed-classified check forces
`hasFailedChecks` regardless of the others; `isMergeable` is
`allChecksPassed` and review decision none or approved — in particular a
changes-requested review decision makes the unit unmergeable even when all
checks passed. -/
theorem prStatusFlags_spec_C4 :
    (∀ (checks : List PRCheck) (rd : String),
      (mkPRStatus checks rd).allChecksPassed
        = (checks.isEmpty ||
            (!(mkPRStatus checks rd).hasPendingChecks &&
              !(mkPRStatus checks rd).hasFailedChecks))) ∧
    (∀ rd : String, (mkPRStatus [] rd).allChecksPassed = true) ∧
    (∀ (checks : List PRCheck) (rd : String),
      (∃ c ∈ checks, classifyCheckState c.state = .failed) →
      (mkPRStatus checks rd).hasFailedChecks = true) ∧
    (∀ (checks : List PRCheck) (rd : String),
      (mkPRStatus checks rd).isMergeable
        = ((mkPRStatus checks rd).allChecksPassed && (rd == "" || rd == "APPROVED"))) ∧
    (∀ checks : List PRCheck,
      (mkPRStatus checks "CHANGES_REQUESTED").isMergeable = false) := by
  refine ⟨?_, ?_, ?_, ?_, ?_⟩
  · intro checks rd
    show (checks.length == 0 || _) = (checks.isEmpty || _)
    rw [show checks.isEmpty = (checks.length == 0) from by cases checks <;> rfl]
    rfl
  · intro rd
    rfl
  · intro checks rd h
    rcases h with ⟨c, hc, hclass⟩
    show (analyzeChecks checks).2 = true
    rw [analyzeChecks_eq]
    exact List.any_eq_true.mpr ⟨c, hc, (classify_failed_iff _).mp hclass⟩
  · intro checks rd
    rfl
  · intro checks
    show (_ && ((("CHANGES_REQUESTED" : String) == "") ||
        (("CHANGES_REQUESTED" : String) == "APPROVED"))) = false
    simp

/-- Witness for C4: a snapshot with one success and one failure has
`hasFailedChecks = true`; an approved-but-failing unit is unmergeable,
while a changes-requested unit with all checks passed is also
unmergeable. -/
theorem prStatusFlags_spec_C4_witness :
    (mkPRStatus [⟨"a", "SUCCESS", ""⟩, ⟨"b", "FAILURE", ""⟩] "APPROVED").hasFailedChecks
      = true ∧
    (mkPRStatus [⟨"a", "SUCCESS", ""⟩] "CHANGES_REQUESTED").isMergeable = false ∧
    (mkPRStatus [] "").allChecksPassed = true :=
  ⟨prStatusFlags_spec_C4.2.2.1 [⟨"a", "SUCCESS", ""⟩, ⟨"b", "FAILURE", ""⟩] "APPROVED"
      ⟨⟨"b", "FAILURE", ""⟩, by simp, by decide⟩,
   prStatusFlags_spec_C4.2.2.2.2 [⟨"a", "SUCCESS", ""⟩],
   prStatusFlags_spec_C4.2.1 ""⟩

/-- C6: `WaitForChecks` returns its current snapshot with a nil error as
soon as the snapshot has `hasFailedChecks` or `allChecksPassed` true,
regardless of remaining polling budget; snapshots produced by `GetPRStatus`
never have both terminal flags at once; and when every poll before the
deadline yields a non-terminal snapshot, it returns the last-seen snapshot
together with a timeout error rather than a definitive success or
failure. -/
theorem waitForChecks_spec_C6 :
    (∀ (s : PRStatus) (rest : List (Option PRStatus)) (last : Option PRStatus),
      (s.hasFailedChecks = true ∨ s.allChecksPassed = true) →
      waitForChecks (some s :: rest) last = (some s, none)) ∧
    (∀ (checks : List PRCheck) (rd : String),
      ¬((mkPRStatus checks rd).hasFailedChecks = true ∧
        (mkPRStatus checks rd).allChecksPassed = true)) ∧
    (∀ (ss : List PRStatus) (last : Option PRStatus),
      (∀ s ∈ ss, s.hasFailedChecks = false ∧ s.allChecksPassed = false) →
      waitForChecks (ss.map some) last =
        (ss.getLast?.elim last some, some WaitError.timeout)) := by
  refine ⟨?_, ?_, ?_⟩
  · intro s rest last h
    rcases h with h | h
    · simp [waitForChecks, h]
    · cases hf : s.hasFailedChecks <;> simp [waitForChecks, hf, h]
  · intro checks rd h
    rcases h with ⟨hf, ha⟩
    have hf' : (analyzeChecks checks).2 = true := hf
    have ha' : (checks.length == 0 ||
        (!(analyzeChecks checks).1 && !(analyzeChecks checks).2)) = true := ha
    by_cases hlen : checks.length = 0
    · have : checks = [] := List.length_eq_zero.mp hlen
      subst this
      simp [analyzeChecks] at hf'
    · rw [hf'] at ha'
      simp [hlen] at ha'
  · intro ss
    induction ss with
    | nil => intro last h; simp [waitForChecks]
    | cons s rest ih =>
        intro last h
        have hs := h s (List.mem_cons_self s rest)
        have hrest : ∀ x ∈ rest, x.hasFailedChecks = false ∧ x.allChecksPassed = false :=
          fun x hx => h x (List.mem_cons_of_mem s hx)
        simp only [List.map_cons, waitForChecks, hs.1, hs.2, Bool.false_eq_true,
          if_false]
        rw [ih (some s) hrest]
        cases rest with
        | nil => simp
        | cons t ts =>
            obtain ⟨x, hx⟩ : ∃ x, (t :: ts).getLast? = some x :=
              Option.isSome_iff_exists.mp (by simp [List.getLast?_isSome])
            simp [List.getLast?_cons_cons, hx]

/-- Witness for C6: a failed snapshot returns immediately with a nil error
even with polling budget left; a run of pending snapshots ends in the last
snapshot plus a timeout error. -/
theorem waitForChecks_spec_C6_witness :
    waitForChecks [some (mkPRStatus [⟨"b", "FAILURE", ""⟩] ""),
        some (mkPRStatus [] "")] none
      = (some (mkPRStatus [⟨"b", "FAILURE", ""⟩] ""), none) ∧
    ¬((mkPRStatus [⟨"b", "FAILURE", ""⟩] "").hasFailedChecks = true ∧
      (mkPRStatus [⟨"b", "FAILURE", ""⟩] "").allChecksPassed = true) ∧
    waitForChecks [some (mkPRStatus [⟨"b", "PENDING", ""⟩] "")] none
      = (some (mkPRStatus [⟨"b", "PENDING", ""⟩] ""), some WaitError.timeout) :=
  ⟨waitForChecks_spec_C6.1 (mkPRStatus [⟨"b", "FAILURE", ""⟩] "")
      [some (mkPRStatus [] "")] none (Or.inl (by decide)),
   waitForChecks_spec_C6.2.1 [⟨"b", "FAILURE", ""⟩] "",
   (waitForChecks_spec_C6.2.2 [mkPRStatus [⟨"b", "PENDING", ""⟩] ""] none
      (by intro x hx; simp at hx; subst hx; exact ⟨by decide, by decide⟩)).trans
     (by simp)⟩

/-- The push loop when every attempt fails with a network-classified error:
starting at attempt index `i ≥ 1` with `r` loop entries left, it consumes
all of them, sleeping the doubling backoff before each, and ends exhausted
with the error of the final attempt. -/
theorem pushLoop_allNetworkFail (push : Nat → Option String) (errs : Nat → String)
    (maxR : Nat) (hp : ∀ j, push j = some (errs j))
    (hn : ∀ j, isNetworkError (some (errs j)) = true) :
    ∀ (r i backoff : Nat) (delays : List Nat) (lastErr : String), 1 ≤ i →
      pushLoop push maxR r i backoff delays lastErr =
        (.exhausted maxR (if r = 0 then lastErr else errs (i + r - 1)),
         i + r,
         delays.reverse ++ (List.range r).map (fun k => backoff * 2 ^ k)) := by
  intro r
  induction r with
  | zero => intro i backoff delays lastErr _; simp [pushLoop]
  | succ r ih =>
      intro i backoff delays lastErr hi
      rw [pushLoop]
      simp only [hp i, hn i, Bool.not_true, Bool.false_eq_true, if_false,
        if_pos (Nat.lt_of_lt_of_le Nat.zero_lt_one hi)]
      rw [ih (i + 1) (backoff * 2) (backoff :: delays) (errs i)
        (Nat.le_succ_of_le hi)]
      simp only [Prod.mk.injEq, PushResult.exhausted.injEq]
      refine ⟨⟨by trivial, ?_⟩, ?_, ?_⟩
      · rcases r with _ | r'
        · simp
        · have h1 : i + 1 + (r' + 1) - 1 = i + (r' + 1 + 1) - 1 := by omega
          simp [h1]
      · omega
      · rw [List.reverse_cons, List.append_assoc, List.singleton_append,
          List.range_succ_eq_map, List.map_cons, List.map_map]
        simp only [Nat.pow_zero, Nat.mul_one]
        refine congrArg _ (congrArg _ ?_)
        refine List.map_congr_left fun k _ => ?_
        show backoff * 2 * 2 ^ k = backoff * 2 ^ (k + 1)
        rw [Nat.pow_succ]
        ring

/-- C7: a first attempt failing with a non-network error is returned
immediately after exactly one invocation and no sleeping; when every
attempt fails with a network-classified error and `maxRetries = N`, the
push is invoked exactly `N + 1` times, the delays slept between attempts
double from the 2-second base (`2, 4, 8, …`), hence are strictly
increasing, and the aggregate result carries `N` and the last underlying
error. -/
theorem pushWithRetry_spec_C7 :
    (∀ (push : Nat → Option String) (N : Nat) (e : String),
      push 0 = some e → isNetworkError (some e) = false →
      pushWithRetry push N = (.permanentErr e, 1, [])) ∧
    (∀ (push : Nat → Option String) (errs : Nat → String) (N : Nat),
      (∀ j, push j = some (errs j)) →
      (∀ j, isNetworkError (some (errs j)) = true) →
      pushWithRetry push N =
        (.exhausted N (errs N), N + 1,
          (List.range N).map (fun k => 2 * 2 ^ k))) ∧
    (∀ (push : Nat → Option String) (errs : Nat → String) (N : Nat),
      (∀ j, push j = some (errs j)) →
      (∀ j, isNetworkError (some (errs j)) = true) →
      ((pushWithRetry push N).2.2).Chain' (· < ·)) := by
  have hexh : ∀ (push : Nat → Option String) (errs : Nat → String) (N : Nat),
      (∀ j, push j = some (errs j)) →
      (∀ j, isNetworkError (some (errs j)) = true) →
      pushWithRetry push N =
        (.exhausted N (errs N), N + 1,
          (List.range N).map (fun k => 2 * 2 ^ k)) := by
    intro push errs N hp hn
    unfold pushWithRetry
    rw [pushLoop]
    simp only [hp 0, hn 0, Bool.not_true, Bool.false_eq_true, if_false,
      Nat.lt_irrefl, reduceIte]
    rw [pushLoop_allNetworkFail push errs N hp hn N 1 2 [] (errs 0) (Nat.le_refl 1)]
    rcases N with _ | N'
    · simp
    · have h1 : 1 + (N' + 1) - 1 = N' + 1 := by omega
      simp [h1, Nat.add_comm]
  refine ⟨?_, hexh, ?_⟩
  · intro push N e hp hn
    unfold pushWithRetry
    rw [pushLoop]
    simp [hp, hn]
  · intro push errs N hp hn
    rw [hexh push errs N hp hn]
    refine List.Pairwise.chain' ?_
    refine List.Pairwise.map _ (fun a b hab => ?_) (List.sorted_lt_range N)
    have h2 : (2 : ℕ) ^ a < 2 ^ b := Nat.pow_lt_pow_right (by omega) hab
    omega

/-- Witness for C7: a permanent error returns after one attempt with no
delays; a persistent DNS failure with `maxRetries = 2` makes 3 attempts
with delays 2 then 4 and an aggregate error carrying the retry count and
the last cause. -/
theorem pushWithRetry_spec_C7_witness :
    pushWithRetry (fun _ => some "fatal: not a repository") 3
      = (.permanentErr "fatal: not a repository", 1, []) ∧
    pushWithRetry (fun _ => some "Could not resolve host") 2
      = (.exhausted 2 "Could not resolve host", 3, [2, 4]) :=
  ⟨pushWithRetry_spec_C7.1 (fun _ => some "fatal: not a repository") 3
      "fatal: not a repository" rfl (by decide),
   (pushWithRetry_spec_C7.2.1 (fun _ => some "Could not resolve host")
      (fun _ => "Could not resolve host") 2 (fun _ => rfl)
      (fun _ => by
        show isNetworkError (some "Could not resolve host") = true
        decide)).trans
     (by decide)⟩

/-- C10: the transient-vs-permanent classifier decides by substring
matching on the error text, and its recognized set includes "SSL" and
"443": any error text containing one of them is classified as a network
error, and a push persistently failing with a message that merely contains
"443" (here a Git object-name message, not a network failure) is retried to
exhaustion — 4 invocations at `maxRetries = 3` — instead of being returned
after a single attempt. -/
theorem isNetworkError_substring_C10 :
    (∀ e : String, strContains e "SSL" = true → isNetworkError (some e) = true) ∧
    (∀ e : String, strContains e "443" = true → isNetworkError (some e) = true) ∧
    isNetworkError (some "fatal: bad object 443f00d") = true ∧
    pushWithRetry (fun _ => some "fatal: bad object 443f00d") 3
      = (.exhausted 3 "fatal: bad object 443f00d", 4, [2, 4, 8]) := by
  refine ⟨?_, ?_, by decide, by decide⟩
  · intro e h
    simp [isNetworkError, h]
  · intro e h
    simp [isNetworkError, h]

/-- Witness for C10: concrete error texts containing "SSL" and "443" are
classified as network errors. -/
theorem isNetworkError_substring_C10_witness :
    isNetworkError (some "error: SSL handshake") = true ∧
    isNetworkError (some "port 443 closed by peer") = true :=
  ⟨isNetworkError_substring_C10.1 "error: SSL handshake" (by decide),
   isNetworkError_substring_C10.2.1 "port 443 closed by peer" (by decide)⟩

/-- `Client.Run` returns a nil error on every path (`claude.go:74-83`): the
process failure is folded into the result instead. -/
theorem clientRun_err_none (p : AgentProc) : (clientRun p).2 = none := by
  cases hp : p.runFailed <;> simp [clientRun, hp]

/-- When branch creation succeeds, `runIteration` is the post-agent tail
applied to the agent result: the agent-error early return never fires
because `Client.Run` never returns a non-nil error. -/
theorem runIteration_eq_tail (cfg : Config) (count : Nat) (env : IterEnv)
    (hcb : env.createBranchOk = true) :
    runIteration cfg count env =
      runIterationTail cfg count env (clientRun env.agent).1 := by
  unfold runIteration
  simp only [hcb, Bool.not_true]
  rw [if_neg Bool.false_ne_true]
  simp only [clientRun_err_none]

/-- The post-agent tail never reports an agent-invocation error. -/
theorem runIterationTail_fst_ne_agentRun (cfg : Config) (count : Nat)
    (env : IterEnv) (result : Result) :
    (runIterationTail cfg count env result).1 ≠ .errAt .agentRun := by
  intro h
  simp only [runIterationTail] at h
  repeat' split at h
  all_goals simp at h

/-- The post-agent tail always adds the agent result's cost. -/
theorem runIterationTail_addedCost (cfg : Config) (count : Nat)
    (env : IterEnv) (result : Result) :
    (runIterationTail cfg count env result).2.addedCost = result.cost := by
  simp only [runIterationTail]
  repeat' split
  all_goals rfl

/-- C9: the agent-invocation wrapper `Client.Run` never returns a non-nil
error — a failing agent process is reported only through the result's
`isError` flag, with the stderr text as the output when stderr is
non-empty — so the iteration driver's early-return branch for an agent
error is unreachable, and the parsed cost delta is added to the
accumulated cost in every iteration that reaches the agent. -/
theorem clientRun_spec_C9 :
    (∀ p : AgentProc, (clientRun p).2 = none) ∧
    (∀ p : AgentProc, p.runFailed = true → (clientRun p).1.isError = true) ∧
    (∀ p : AgentProc, p.runFailed = true → p.stderr ≠ "" →
      (clientRun p).1.output = p.stderr) ∧
    (∀ (cfg : Config) (count : Nat) (env : IterEnv),
      (runIteration cfg count env).1 ≠ IterOutcome.errAt ErrSite.agentRun) ∧
    (∀ (cfg : Config) (count : Nat) (env : IterEnv), env.createBranchOk = true →
      (runIteration cfg count env).2.addedCost = (clientRun env.agent).1.cost) := by
  refine ⟨clientRun_err_none, ?_, ?_, ?_, ?_⟩
  · intro p h
    simp [clientRun, h]
  · intro p h h2
    simp [clientRun, h, h2]
  · intro cfg count env
    by_cases hcb : env.createBranchOk = true
    · rw [runIteration_eq_tail cfg count env hcb]
      exact runIterationTail_fst_ne_agentRun cfg count env (clientRun env.agent).1
    · have hcb' : env.createBranchOk = false := by simpa using hcb
      unfold runIteration
      simp [hcb']
  · intro cfg count env hcb
    rw [runIteration_eq_tail cfg count env hcb]
    exact runIterationTail_addedCost cfg count env (clientRun env.agent).1

/-- Witness for C9: a concrete failed agent process yields a nil error with
the error flag set and the stderr text as output, and a concrete iteration
adds the parsed cost delta (1) to the accumulated cost. -/
theorem clientRun_spec_C9_witness :
    (clientRun ⟨true, "", "boom", none⟩).2 = none ∧
    (clientRun ⟨true, "", "boom", none⟩).1.isError = true ∧
    (clientRun ⟨true, "", "boom", none⟩).1.output = "boom" ∧
    (runIteration ⟨5, 0, 0, 3, "DONE", true, false⟩ 0
        ⟨true, ⟨false, "out", "", some ("did work", 1, false)⟩, true, some true,
          true, (fun _ => none), true, [], true⟩).2.addedCost
      = (clientRun ⟨false, "out", "", some ("did work", 1, false)⟩).1.cost :=
  ⟨clientRun_spec_C9.1 ⟨true, "", "boom", none⟩,
   clientRun_spec_C9.2.1 ⟨true, "", "boom", none⟩ rfl,
   clientRun_spec_C9.2.2.1 ⟨true, "", "boom", none⟩ rfl (by decide),
   clientRun_spec_C9.2.2.2.2 ⟨5, 0, 0, 3, "DONE", true, false⟩ 0
     ⟨true, ⟨false, "out", "", some ("did work", 1, false)⟩, true, some true,
       true, (fun _ => none), true, [], true⟩ rfl⟩

/-- C2 (code bug): when a review poll inside `WaitForChecks` fails with a
transport error, `WaitForChecks` returns a nil snapshot together with the
error (`github.go`: `return nil, err`); `runIteration` only logs the error
as a timeout warning and then dereferences `status.HasFailedChecks` on the
nil pointer (`orchestrator.go:301-306`), a runtime panic that crashes the
whole run instead of being contained to the iteration. -/
theorem runIteration_poll_transport_panics_C2 :
    waitForChecks [none] none = (none, some WaitError.transport) ∧
    (runIteration cfgPersist 0 envPollError).1 = IterOutcome.panicNilStatus := by
  constructor <;> rfl

/-- C8 counterexample: with disable-persistence active and every external
call succeeding, the iteration ends without switching back to the base
branch and without deleting the feature branch — the claim's "discard the
feature branch" does not happen in the disable-persistence case. -/
theorem runIteration_disableCommits_keeps_branch_C8 :
    (runIteration cfgDisableCommits 0 envAllOk).1 = IterOutcome.ok ∧
    (runIteration cfgDisableCommits 0 envAllOk).2.switchedToBase = false ∧
    (runIteration cfgDisableCommits 0 envAllOk).2.deletedBranch = false :=
  ⟨rfl, rfl, rfl⟩

/-- C8 (amended): when disable-persistence is active the iteration ends
immediately after the agent step — no commit, no publish, no review unit —
but the feature branch is kept (no switch back to base, no deletion);
when persistence is enabled and dry-run is active, or staging reports no
working-copy changes, the iteration ends the same way except that it also
discards the feature branch (switches back to the base line and deletes
it). -/
theorem runIteration_discard_amended_C8 (cfg : Config) (count : Nat)
    (env : IterEnv) (hcb : env.createBranchOk = true) :
    (cfg.disableCommits = true →
      runIteration cfg count env =
        (.ok, ⟨(clientRun env.agent).1.cost,
          updateCompletionCount count (clientRun env.agent).1.output
            cfg.completionSignal,
          false, false, false, false, false, false, false⟩)) ∧
    (cfg.disableCommits = false → cfg.dryRun = true →
      runIteration cfg count env =
        (.ok, ⟨(clientRun env.agent).1.cost,
          updateCompletionCount count (clientRun env.agent).1.output
            cfg.completionSignal,
          false, false, false, false, false, true, true⟩)) ∧
    (cfg.disableCommits = false → cfg.dryRun = false → env.stageOk = true →
      env.hasChangesResult = some false →
      runIteration cfg count env =
        (.ok, ⟨(clientRun env.agent).1.cost,
          updateCompletionCount count (clientRun env.agent).1.output
            cfg.completionSignal,
          false, false, false, false, false, true, true⟩)) := by
  rw [runIteration_eq_tail cfg count env hcb]
  refine ⟨?_, ?_, ?_⟩
  · intro h1
    unfold runIterationTail
    simp [h1]
  · intro h1 h2
    unfold runIterationTail
    simp [h1, h2]
  · intro h1 h2 h3 h4
    unfold runIterationTail
    simp [h1, h2, h3, h4]

/-- Witness for C8 (amended): the three early-exit shapes evaluated at
concrete configurations and environments. -/
theorem runIteration_discard_amended_C8_witness :
    runIteration cfgDisableCommits 0 envAllOk
      = (IterOutcome.ok, ⟨1, 0, false, false, false, false, false, false, false⟩) ∧
    runIteration ⟨5, 0, 0, 3, "DONE", false, true⟩ 0 envAllOk
      = (IterOutcome.ok, ⟨1, 0, false, false, false, false, false, true, true⟩) ∧
    runIteration cfgPersist 0
        ⟨true, sampleAgent, true, some false, true, (fun _ => none), true, [], true⟩
      = (IterOutcome.ok, ⟨1, 0, false, false, false, false, false, true, true⟩) :=
  ⟨((runIteration_discard_amended_C8 cfgDisableCommits 0 envAllOk rfl).1 rfl).trans
      (by decide),
   ((runIteration_discard_amended_C8 ⟨5, 0, 0, 3, "DONE", false, true⟩ 0 envAllOk
      rfl).2.1 rfl rfl).trans (by decide),
   ((runIteration_discard_amended_C8 cfgPersist 0
      ⟨true, sampleAgent, true, some false, true, (fun _ => none), true, [], true⟩
      rfl).2.2 rfl rfl rfl rfl).trans (by decide)⟩

end DeepClaude
